import Mathlib

/-!
Verification of the FX graph gradual typechecker
(`torch/fx/experimental/graph_gradual_typechecker.py`).

The data model is a shallow embedding of the Python source: types are `Dyn`,
tensor-shape types, the Python builtin `int` type, and Python `None` (which
can flow through `type` fields); dimension values are `Dyn`, integers, or
Python `None`.  Inference rules are pure functions from the types they read
to the types they write plus an `Except` result mirroring raised exceptions.
The relations `is_consistent` / `is_more_precise` live in
`torch/fx/tensor_type.py`, which is outside the embedded source tree; they
are modelled from the specification.
-/

/-- A dimension value inside a tensor-shape type: `Dyn`, a concrete integer,
or Python `None` (which can be written into a shape by
`adaptiveavgpool2d_check`). -/
inductive Dim where
  | dyn
  | val (n : Int)
  | noneD
  deriving DecidableEq, Repr

/-- A type in the gradual lattice: `Dyn`, a tensor-shape type `TensorType`,
the Python builtin `int` type (used by the scalar-addition case), or the
Python value `None` (the default of a node's `type` field). -/
inductive Ty where
  | dyn
  | tensor (dims : List Dim)
  | int_t
  | noneTy
  deriving DecidableEq, Repr

/-- Errors raised by the typechecker (Python `TypeError` / `RuntimeError` /
`AssertionError` / `ZeroDivisionError` variants, tagged by raise site and
carrying the values interpolated into the Python message). -/
inductive TErr where
  | cannotExtend (t : Ty) (n : Nat)
  | cannotMatch (t : Ty)
  | cannotBroadcastTensors (t1 t2 : Ty)
  | inPlaceShapeChange
  | cannotBroadcastGeneral (t1 t2 : Ty)
  | cannotAddArgs (t1 t2 : Ty)
  | cannotTranspose (d1 d2 : Int) (t : Ty)
  | cannotReshape (t1 t2 : Ty)
  | cannotApplyModule (argTy nTy : Ty)
  | inconsistentTypes (t1 t2 : Ty)
  | wrongSize (t : Ty)
  | inconsistentFeatures (inF : Int) (d : Dim)
  | rankTooSmall (t : Ty)
  | rankMustBe34 (t : Ty)
  | inconsistentArgAndNode (t1 t2 : Ty)
  | wrongTypes (t1 t2 : Ty)
  | unregisteredFunction (name : String)
  | unregisteredModule (name : String)
  | notImplemented
  | assertionError
  | attrError
  | zeroDivision
  | reduceEmpty
  deriving DecidableEq, Repr

/-- Modelled from the spec: dimension-level consistency from
`torch/fx/tensor_type.py` (not in the embedded sources).  "dynamic type is
consistent with anything, including dimension-level dynamic"; two dimension
values are consistent when "equal integers, or either side dynamic". -/
def dim_consistent (d1 d2 : Dim) : Bool :=
  match d1, d2 with
  | Dim.dyn, _ => true
  | _, Dim.dyn => true
  | a, b => a == b

/-- Modelled from the spec: `is_consistent` from `torch/fx/tensor_type.py`
(not in the embedded sources).  "dynamic type is consistent with anything";
"two tensor-shape types are consistent iff same rank and each pairwise
dimension pair is consistent"; "mismatched ranks are not consistent";
consistency is reflexive, which the equality catch-all provides for the
remaining values. -/
def is_consistent (t1 t2 : Ty) : Bool :=
  match t1, t2 with
  | Ty.dyn, _ => true
  | _, Ty.dyn => true
  | Ty.tensor a, Ty.tensor b =>
      a.length == b.length && (a.zip b).all fun p => dim_consistent p.1 p.2
  | a, b => a == b

/-- Modelled from the spec: dimension-level precision from
`torch/fx/tensor_type.py` (not in the embedded sources).  "`t1[i]` is more
precise than `t2[i]` when `t2[i]` is dynamic and `t1[i]` is a known integer,
or both are equal integers"; "dynamic compared to dynamic is defined to be
not more precise". -/
def dim_more_precise (d1 d2 : Dim) : Bool :=
  match d1, d2 with
  | Dim.val m, Dim.val n => m == n
  | Dim.val _, Dim.dyn => true
  | _, _ => false

/-- Modelled from the spec: `is_more_precise` from `torch/fx/tensor_type.py`
(not in the embedded sources).  "dynamic type is less precise than
everything (never more precise than a concrete type)"; a tensor-shape type
is more precise than another (same rank required) iff every dimension pair
is; the equality catch-all covers the remaining values. -/
def is_more_precise (t1 t2 : Ty) : Bool :=
  match t1, t2 with
  | Ty.dyn, _ => false
  | _, Ty.dyn => true
  | Ty.tensor a, Ty.tensor b =>
      a.length == b.length && (a.zip b).all fun p => dim_more_precise p.1 p.2
  | a, b => a == b

/-- `expand_to_tensor_dim(t, n)`: expand a type to the desired tensor
dimension if possible, raise an error otherwise. -/
def expand_to_tensor_dim (t : Ty) (n : Nat) : Except TErr Ty :=
  if t = Ty.dyn then
    Except.ok (Ty.tensor (List.replicate n Dim.dyn))
  else
    match t with
    | Ty.tensor dims =>
        if dims.length = n then Except.ok (Ty.tensor dims)
        else Except.error (TErr.cannotExtend (Ty.tensor dims) n)
    | t => Except.error (TErr.cannotMatch t)

/-- One step of the broadcast unification loop: if the left value is `1`
the left slot is replaced by the right value, otherwise if the right value
is `1` the right slot is replaced by the left value. -/
def bcastPair (p : Dim × Dim) : Dim × Dim :=
  if p.1 = Dim.val 1 then (p.2, p.2)
  else if p.2 = Dim.val 1 then (p.1, p.1)
  else p

/-- `broadcast_types(t1, t2)`: `Dyn` on either side short-circuits; two
tensor-shape types must have ranks differing by at most one and neither
rank zero; the shorter is left-padded with the other's leading dimension;
then dimensions equal to `1` are unified; finally the in-place-safety check
requires at least one side to be unchanged. -/
def broadcast_types (t1 t2 : Ty) : Except TErr (Ty × Ty) :=
  if t1 = Ty.dyn ∨ t2 = Ty.dyn then Except.ok (t1, t2)
  else
    match t1, t2 with
    | Ty.tensor a1, Ty.tensor a2 =>
        let s1 := a1.length
        let s2 := a2.length
        if s1 + 1 < s2 ∨ s2 + 1 < s1 ∨ s1 = 0 ∨ s2 = 0 then
          Except.error (TErr.cannotBroadcastTensors (Ty.tensor a1) (Ty.tensor a2))
        else
          let n2 := if s2 < s1 then a1.headD Dim.dyn :: a2 else a2
          let n1 := if s1 < s2 then a2.headD Dim.dyn :: a1 else a1
          let z := (n1.zip n2).map bcastPair
          let f1 := z.map Prod.fst
          let f2 := z.map Prod.snd
          if f1 ≠ a1 ∧ f2 ≠ a2 then Except.error TErr.inPlaceShapeChange
          else Except.ok (Ty.tensor f1, Ty.tensor f2)
    | t1, t2 => Except.error (TErr.cannotBroadcastGeneral t1 t2)

/-- A kernel/stride/padding/dilation attribute: a single scalar or a pair. -/
inductive ScalarOrPair where
  | scalar (n : Int)
  | pair (a b : Int)
  deriving DecidableEq, Repr

/-- Normalize a scalar attribute to a pair and index it (`[index]`). -/
def sopGet (s : ScalarOrPair) (i : Nat) : Int :=
  match s with
  | ScalarOrPair.scalar n => n
  | ScalarOrPair.pair a b => if i = 0 then a else b

/-- The four numeric attributes `calculate` reads off a convolution or
pooling module instance. -/
structure PoolParams where
  padding : ScalarOrPair
  kernel_size : ScalarOrPair
  stride : ScalarOrPair
  dilation : ScalarOrPair
  deriving DecidableEq, Repr

/-- `calculate(d_in, module_instance, index)`: the output-size formula for
one spatial axis.  `Dyn` gives `Dyn`; an integer`d` gives
`(d + 2*padding[index] - dilation[index]*(kernel[index]-1) - 1) // stride[0] + 1`
(Python floor division, and the stride is read at index `0` for both axes);
any other input falls through and yields Python `None`. -/
def calculate (d_in : Dim) (m : PoolParams) (index : Nat) : Dim :=
  match d_in with
  | Dim.dyn => Dim.dyn
  | Dim.val d =>
      Dim.val (Int.fdiv
        (d + 2 * sopGet m.padding index -
          sopGet m.dilation index * (sopGet m.kernel_size index - 1) - 1)
        (sopGet m.stride 0) + 1)
  | Dim.noneD => Dim.noneD

/-- `get_greatest_upper_bound(type1, type2)`: per dimension picks whichever
side is more precise (ties go to the second argument, since the first is
kept only when strictly preferred by `is_more_precise`).  The Python code
asserts equal ranks and implicitly returns `None` for other inputs; both of
those unreachable paths are collapsed to the Python value `None`. -/
def get_greatest_upper_bound (t1 t2 : Ty) : Ty :=
  if t1 = Ty.dyn then t2
  else if t2 = Ty.dyn then t1
  else
    match t1, t2 with
    | Ty.tensor d1, Ty.tensor d2 =>
        if d1.length = d2.length then
          Ty.tensor ((d1.zip d2).map fun p =>
            if dim_more_precise p.1 p.2 then p.1 else p.2)
        else Ty.noneTy
    | _, _ => Ty.noneTy

/-- Read `t.__args__[i]`; callers guarantee `t` is a tensor-shape type of
sufficient rank. -/
def getDim (t : Ty) (i : Nat) : Dim :=
  match t with
  | Ty.tensor dims => dims.getD i Dim.noneD
  | _ => Dim.noneD

/-- Whether a value is a `TensorType` (`isinstance(t, TensorType)`). -/
def isTensorTy (t : Ty) : Bool :=
  match t with
  | Ty.tensor _ => true
  | _ => false

/-- Result of the add rule: the returned/raised value together with the
post-run `type` fields of both argument nodes and the node itself. -/
structure AddOut where
  res : Except TErr Ty
  arg0 : Ty
  arg1 : Ty
  nty : Ty
  deriving Repr

/-- Result of a module rule that mutates its argument node's `type`
(batch-norm, convolution): returned/raised value, the argument node's
post-run `type`, and the node's post-run `type`. -/
structure MOut where
  res : Except TErr Ty
  arg : Ty
  nty : Ty
  deriving Repr

/-- Result of a rule that mutates only the node's own `type`. -/
structure NOut where
  res : Except TErr Ty
  nty : Ty
  deriving Repr

/-- `add_inference_rule(n)` on argument types `t1`, `t2` and current node
type `nty`: scalar `int` plus tensor short-circuits; otherwise both
operand types are broadcast and written back to the argument nodes, and on
consistency the node's type is set to `new_t2` when
`is_more_precise(new_t1, new_t2)` and to `new_t1` otherwise. -/
def add_inference_rule (t1 t2 nty : Ty) : AddOut :=
  if t1 = Ty.int_t ∧ isTensorTy t2 then
    { res := Except.ok t2, arg0 := t1, arg1 := t2, nty := t2 }
  else if t2 = Ty.int_t ∧ isTensorTy t1 then
    { res := Except.ok t1, arg0 := t1, arg1 := t2, nty := t1 }
  else
    match broadcast_types t1 t2 with
    | Except.error e => { res := Except.error e, arg0 := t1, arg1 := t2, nty := nty }
    | Except.ok (n1, n2) =>
        if is_consistent n1 n2 then
          if is_more_precise n1 n2 then
            { res := Except.ok n2, arg0 := n1, arg1 := n2, nty := n2 }
          else
            { res := Except.ok n1, arg0 := n1, arg1 := n2, nty := n1 }
        else
          { res := Except.error (TErr.cannotAddArgs n1 n2), arg0 := n1, arg1 := n2, nty := nty }

/-- `transpose_inference_rule(n)` on the argument type `t` and integer
dimensions `dim1`, `dim2`: `Dyn` passes through; for a tensor-shape type
with both dimensions in range the two dimension values are swapped. -/
def transpose_inference_rule (t : Ty) (dim1 dim2 : Int) : Except TErr Ty :=
  if t = Ty.dyn then Except.ok Ty.dyn
  else
    match t with
    | Ty.tensor dims =>
        if 0 ≤ dim1 ∧ dim1 < dims.length ∧ 0 ≤ dim2 ∧ dim2 < dims.length then
          let i1 := dim1.toNat
          let i2 := dim2.toNat
          let a := dims.getD i1 Dim.noneD
          let b := dims.getD i2 Dim.noneD
          Except.ok (Ty.tensor ((dims.set i1 b).set i2 a))
        else Except.error (TErr.cannotTranspose dim1 dim2 (Ty.tensor dims))
    | t => Except.error (TErr.cannotTranspose dim1 dim2 t)

/-- `reduce(lambda x, y: x * y, ...)` over a list of dimension values: the
accumulator times the remaining factors; multiplying a non-integer value
raises.  -/
def dimsProdAux (acc : Int) : List Dim → Except TErr Int
  | [] => Except.ok acc
  | Dim.val n :: rest => dimsProdAux (acc * n) rest
  | _ :: _ => Except.error TErr.assertionError

/-- `reduce` over dimension values; Python `reduce` raises on an empty
list. -/
def dimsProd (l : List Dim) : Except TErr Int :=
  match l with
  | [] => Except.error TErr.reduceEmpty
  | l => dimsProdAux 1 l

/-- `reduce(lambda x, y: x * y, ...)` over a list of integers. -/
def intProd (l : List Int) : Except TErr Int :=
  match l with
  | [] => Except.error TErr.reduceEmpty
  | l => Except.ok l.prod

/-- The target list of a reshape as a type: `-1` becomes `Dyn`. -/
def reshapeTargetTy (l : List Int) : Ty :=
  Ty.tensor (l.map fun e => if e = -1 then Dim.dyn else Dim.val e)

/-- `isinstance(t1, TensorType) and Dyn in t1.__args__`: whether a type is a
tensor-shape type with a `Dyn` dimension. -/
def hasDynDim (t : Ty) : Bool :=
  match t with
  | Ty.tensor dims => Dim.dyn ∈ dims
  | _ => false

/-- `reshape_inference_rule(n)` on the source type `t1` and the target
list `t2`: a `Dyn` source returns the target type; if the source has a
`Dyn` dimension or the target a `-1` wildcard, the products (with `Dyn`
counted as `1`) must divide one way or the other; otherwise the two
products must be equal. -/
def reshape_inference_rule (t1 : Ty) (t2 : List Int) : Except TErr Ty :=
  let t2_type := reshapeTargetTy t2
  if t1 = Ty.dyn then Except.ok t2_type
  else if hasDynDim t1 ∨ (-1 : Int) ∈ t2 then
    match t1 with
    | Ty.tensor dims =>
        let a := dims.map fun e => if e = Dim.dyn then Dim.val 1 else e
        match dimsProd a with
        | Except.error e => Except.error e
        | Except.ok p1 =>
            match intProd t2 with
            | Except.error e => Except.error e
            | Except.ok p2 =>
                if p2 = 0 then Except.error TErr.zeroDivision
                else if p1 % p2 = 0 then Except.ok t2_type
                else if p1 = 0 then Except.error TErr.zeroDivision
                else if p2 % p1 = 0 then Except.ok t2_type
                else Except.error (TErr.cannotReshape (Ty.tensor dims) t2_type)
    | _ => Except.error TErr.assertionError
  else
    match t1 with
    | Ty.tensor dims =>
        match dimsProd dims with
        | Except.error e => Except.error e
        | Except.ok p1 =>
            match intProd t2 with
            | Except.error e => Except.error e
            | Except.ok p2 =>
                if p1 = p2 then Except.ok t2_type
                else Except.error (TErr.cannotReshape (Ty.tensor dims) t2_type)
    | t1 => Except.error (TErr.cannotReshape t1 t2_type)

/-- `bn2d_inference_rule(n, module_instance)`: expand both the argument's
type and the node's type to rank 4 (each expansion is written back before
the next step can fail), require both channel dimensions consistent with
`num_features` and the two types consistent with each other, and keep the
more precise of the two. -/
def bn2d_inference_rule (argTy nty : Ty) (num_features : Int) : MOut :=
  match expand_to_tensor_dim argTy 4 with
  | Except.error e => { res := Except.error e, arg := argTy, nty := nty }
  | Except.ok a =>
      match expand_to_tensor_dim nty 4 with
      | Except.error e => { res := Except.error e, arg := a, nty := nty }
      | Except.ok c =>
          if dim_consistent (getDim a 1) (Dim.val num_features) ∧
             dim_consistent (getDim c 1) (Dim.val num_features) ∧
             is_consistent a c then
            if is_more_precise a c then
              { res := Except.ok a, arg := a, nty := a }
            else
              { res := Except.ok c, arg := a, nty := c }
          else
            { res := Except.error (TErr.cannotApplyModule a c), arg := a, nty := c }

/-- The numeric attributes `conv2d_inference_rule` reads off a `Conv2d`
module instance. -/
structure Conv2dCfg where
  in_channels : Int
  out_channels : Int
  params : PoolParams
  deriving DecidableEq, Repr

/-- `conv2d_inference_rule(n, module_instance)`: the argument's type is
expanded to rank 4 and written back; the node's own expansion stays local.
On a consistent channel dimension the candidate output shape is built from
the formula and must be consistent with the (expanded) node type; the node
type becomes their greatest upper bound.  On the channel error the node's
type is left unchanged. -/
def conv2d_inference_rule (argTy nty : Ty) (m : Conv2dCfg) : MOut :=
  match expand_to_tensor_dim argTy 4 with
  | Except.error e => { res := Except.error e, arg := argTy, nty := nty }
  | Except.ok a =>
      match expand_to_tensor_dim nty 4 with
      | Except.error e => { res := Except.error e, arg := a, nty := nty }
      | Except.ok curr =>
          if dim_consistent (getDim a 1) (Dim.val m.in_channels) then
            let h_out := calculate (getDim a 2) m.params 0
            let w_out := calculate (getDim a 3) m.params 1
            let new_type := Ty.tensor [getDim a 0, Dim.val m.out_channels, h_out, w_out]
            if is_consistent new_type curr then
              let gub := get_greatest_upper_bound new_type curr
              { res := Except.ok gub, arg := a, nty := gub }
            else
              { res := Except.error (TErr.inconsistentTypes new_type curr), arg := a, nty := nty }
          else
            { res := Except.error (TErr.cannotApplyModule a nty), arg := a, nty := nty }

/-- `relu_inference_rule(n, module_instance)`: the argument type and node
type must be consistent, and the more precise of the two wins. -/
def relu_inference_rule (argTy nty : Ty) : NOut :=
  if is_consistent argTy nty then
    if is_more_precise argTy nty then
      { res := Except.ok argTy, nty := argTy }
    else
      { res := Except.ok nty, nty := nty }
  else
    { res := Except.error (TErr.cannotApplyModule argTy nty), nty := nty }

/-- `maxpool2d_check(typ, module_instance)`: for a rank-3 or rank-4
tensor-shape type, recompute the last two dimensions with the pooling
formula (`[-2]` becomes `h_out`, `[-1]` becomes `w_out`). -/
def maxpool2d_check (t : Ty) (m : PoolParams) : Except TErr Ty :=
  match t with
  | Ty.tensor dims =>
      if dims.length = 4 ∨ dims.length = 3 then
        let w_in := dims.getLastD Dim.noneD
        let h_in := dims.dropLast.getLastD Dim.noneD
        let h_out := calculate h_in m 0
        let w_out := calculate w_in m 1
        Except.ok (Ty.tensor (dims.dropLast.dropLast ++ [h_out, w_out]))
      else Except.error (TErr.wrongSize (Ty.tensor dims))
  | _ => Except.error TErr.attrError

/-- `maxpool2d_inference_rule(n, module_instance)`: both `Dyn` returns
`Dyn`; one `Dyn` side recomputes from the concrete side; with both sides
concrete tensor-shape types both are recomputed, the node type is set to
the recomputed node type and then replaced by the recomputed argument type
when that is more precise — no consistency check is performed between the
two recomputed shapes. -/
def maxpool2d_inference_rule (argTy nty : Ty) (m : PoolParams) : NOut :=
  if argTy = Ty.dyn ∧ nty = Ty.dyn then
    { res := Except.ok Ty.dyn, nty := nty }
  else if argTy = Ty.dyn ∧ isTensorTy nty then
    match maxpool2d_check nty m with
    | Except.ok t => { res := Except.ok t, nty := t }
    | Except.error e => { res := Except.error e, nty := nty }
  else if nty = Ty.dyn ∧ isTensorTy argTy then
    match maxpool2d_check argTy m with
    | Except.ok t => { res := Except.ok t, nty := t }
    | Except.error e => { res := Except.error e, nty := nty }
  else if isTensorTy argTy ∧ isTensorTy nty then
    match maxpool2d_check argTy m with
    | Except.error e => { res := Except.error e, nty := nty }
    | Except.ok new_arg =>
        match maxpool2d_check nty m with
        | Except.error e => { res := Except.error e, nty := nty }
        | Except.ok new_node =>
            if is_more_precise new_arg new_node then
              { res := Except.ok new_arg, nty := new_arg }
            else
              { res := Except.ok new_node, nty := new_node }
  else
    { res := Except.error (TErr.cannotApplyModule argTy nty), nty := nty }

/-- `linear_check(tensor_type, op_type)`: for rank ≥ 2, `in_features` must
be consistent with the last dimension, which is then replaced by
`out_features`. -/
def linear_check (t : Ty) (in_features out_features : Int) : Except TErr Ty :=
  match t with
  | Ty.tensor dims =>
      if 2 ≤ dims.length then
        if dim_consistent (Dim.val in_features) (dims.getLastD Dim.noneD) then
          Except.ok (Ty.tensor (dims.dropLast ++ [Dim.val out_features]))
        else
          Except.error (TErr.inconsistentFeatures in_features (dims.getLastD Dim.noneD))
      else Except.error (TErr.rankTooSmall (Ty.tensor dims))
  | _ => Except.error TErr.attrError

/-- `linear_inference_rule(n, op_type)`: with both sides concrete the two
types must be consistent, both are run through `linear_check`, and the
more precise result wins; with one `Dyn` side the concrete side is
checked; with both `Dyn` the result is `Dyn`. -/
def linear_inference_rule (argTy nty : Ty) (in_features out_features : Int) : NOut :=
  if isTensorTy argTy ∧ isTensorTy nty then
    if is_consistent argTy nty then
      match linear_check argTy in_features out_features with
      | Except.error e => { res := Except.error e, nty := nty }
      | Except.ok fromArg =>
          match linear_check nty in_features out_features with
          | Except.error e => { res := Except.error e, nty := nty }
          | Except.ok fromNode =>
              if is_more_precise fromArg fromNode then
                { res := Except.ok fromArg, nty := fromArg }
              else
                { res := Except.ok fromNode, nty := fromNode }
    else
      { res := Except.error (TErr.inconsistentArgAndNode argTy nty), nty := nty }
  else if isTensorTy argTy ∧ nty = Ty.dyn then
    match linear_check argTy in_features out_features with
    | Except.ok t => { res := Except.ok t, nty := t }
    | Except.error e => { res := Except.error e, nty := nty }
  else if isTensorTy nty ∧ argTy = Ty.dyn then
    match linear_check nty in_features out_features with
    | Except.ok t => { res := Except.ok t, nty := t }
    | Except.error e => { res := Except.error e, nty := nty }
  else if argTy = Ty.dyn ∧ nty = Ty.dyn then
    { res := Except.ok Ty.dyn, nty := nty }
  else
    { res := Except.error (TErr.wrongTypes nty argTy), nty := nty }

/-- The `output_size` attribute of an adaptive average pool module: a
scalar or a pair whose components may be Python `None`. -/
inductive OutSize where
  | scalarO (n : Int)
  | pairO (a b : Option Int)
  deriving DecidableEq, Repr

/-- The `output_size` normalization at the top of
`adaptiveavgpool2d_check`: a scalar is duplicated; in a pair a `None`
first component is replaced by the second, while the statement for a
`None` second component (`output_size[1] == output_size[0]`) is a
comparison, not an assignment, and changes nothing. -/
def normOutputSize (os : OutSize) : Option Int × Option Int :=
  match os with
  | OutSize.scalarO n => (some n, some n)
  | OutSize.pairO a b => (if a = none then b else a, b)

/-- An `output_size` component written into a shape: `None` stays the
Python value `None`. -/
def optToDim (o : Option Int) : Dim :=
  match o with
  | some n => Dim.val n
  | none => Dim.noneD

/-- `adaptiveavgpool2d_check(tensor_type, op_type)`: for a rank-3 or
rank-4 tensor-shape type, overwrite `[-2]` with `output_size[0]` and
`[-1]` with `output_size[1]`. -/
def adaptiveavgpool2d_check (t : Ty) (os : OutSize) : Except TErr Ty :=
  let o := normOutputSize os
  match t with
  | Ty.tensor dims =>
      if dims.length = 4 ∨ dims.length = 3 then
        Except.ok (Ty.tensor (dims.dropLast.dropLast ++ [optToDim o.1, optToDim o.2]))
      else Except.error (TErr.rankMustBe34 (Ty.tensor dims))
  | _ => Except.error TErr.attrError

/-- `adaptiveavgpool2d_inference_rule(n, op_type)`: with both sides
concrete the types must be consistent, both are run through the check and
the more precise result wins; with one `Dyn` side the concrete side is
checked; with both `Dyn` the result is `Dyn`. -/
def adaptiveavgpool2d_inference_rule (argTy nty : Ty) (os : OutSize) : NOut :=
  if isTensorTy argTy ∧ isTensorTy nty then
    if is_consistent argTy nty then
      match adaptiveavgpool2d_check argTy os with
      | Except.error e => { res := Except.error e, nty := nty }
      | Except.ok fromArg =>
          match adaptiveavgpool2d_check nty os with
          | Except.error e => { res := Except.error e, nty := nty }
          | Except.ok fromNode =>
              if is_more_precise fromArg fromNode then
                { res := Except.ok fromArg, nty := fromArg }
              else
                { res := Except.ok fromNode, nty := fromNode }
    else
      { res := Except.error (TErr.inconsistentArgAndNode argTy nty), nty := nty }
  else if argTy = Ty.dyn ∧ isTensorTy nty then
    match adaptiveavgpool2d_check nty os with
    | Except.ok t => { res := Except.ok t, nty := t }
    | Except.error e => { res := Except.error e, nty := nty }
  else if isTensorTy argTy ∧ nty = Ty.dyn then
    match adaptiveavgpool2d_check argTy os with
    | Except.ok t => { res := Except.ok t, nty := t }
    | Except.error e => { res := Except.error e, nty := nty }
  else if nty = Ty.dyn ∧ argTy = Ty.dyn then
    { res := Except.ok Ty.dyn, nty := nty }
  else
    { res := Except.error (TErr.wrongTypes nty argTy), nty := nty }

/-- A `call_function` target: the functions registered by the decorators
at import time, or an unregistered one identified by name. -/
inductive FnTarget where
  | torchAdd
  | operatorAdd
  | torchTranspose
  | torchReshape
  | otherFn (name : String)
  deriving DecidableEq, Repr

/-- `n.target in _INFERENCE_RULES` for a `call_function` node. -/
def registered_fn (t : FnTarget) : Bool :=
  match t with
  | FnTarget.otherFn _ => false
  | _ => true

/-- A module instance resolved from a `call_module` target: its runtime
class picks the rule, and the rule reads the listed numeric attributes. -/
inductive ModuleCfg where
  | batchNorm2dM (num_features : Int)
  | conv2dM (c : Conv2dCfg)
  | reluM
  | maxPool2dM (p : PoolParams)
  | linearM (in_features out_features : Int)
  | adaptiveAvgPool2dM (os : OutSize)
  | otherModule (name : String)
  deriving DecidableEq, Repr

/-- The `op` tag of a graph node. -/
inductive NodeOp where
  | placeholder
  | callFunction
  | callModule
  | output
  | other
  deriving DecidableEq, Repr

/-- An entry of a node's argument list: a reference to another node by
index, an integer literal, or a list literal. -/
inductive Arg where
  | node (i : Nat)
  | intLit (n : Int)
  | listLit (l : List Int)
  deriving DecidableEq, Repr

/-- The static part of a graph node (everything but the mutable `type`
field): operator kind, targets and argument list. -/
structure NodeInfo where
  op : NodeOp
  fnTarget : FnTarget
  modName : String
  args : List Arg
  deriving DecidableEq, Repr

/-- Read a node's current `type` field (node `type` fields default to the
Python value `None`). -/
def getTy (tys : List Ty) (j : Nat) : Ty :=
  tys.getD j Ty.noneTy

/-- `GraphTypeChecker.type_check_node(n)`: the mutable `type` fields of
the graph's nodes are the state `tys`, index-aligned with the static node
list `ns`; `tr` resolves a `call_module` target name to the module
instance.  A `None` node type is first initialized to `Dyn`; then the
node's kind is dispatched: placeholders return, `call_function` and
`call_module` targets are looked up in the registry (an unregistered
target is a fatal error), output nodes copy their first argument's type,
and any other kind is unimplemented. -/
def type_check_node (tr : String → Option ModuleCfg) (ns : List NodeInfo)
    (tys : List Ty) (i : Nat) : Except TErr (List Ty) :=
  match ns.get? i with
  | none => Except.ok tys
  | some info =>
    let nty := if getTy tys i = Ty.noneTy then Ty.dyn else getTy tys i
    let tys1 := tys.set i nty
    match info.op with
    | NodeOp.placeholder => Except.ok tys1
    | NodeOp.callFunction =>
        match info.fnTarget with
        | FnTarget.torchAdd =>
            match info.args.get? 0, info.args.get? 1 with
            | some (Arg.node j1), some (Arg.node j2) =>
                let out := add_inference_rule (getTy tys1 j1) (getTy tys1 j2) nty
                match out.res with
                | Except.ok _ =>
                    Except.ok (((tys1.set j1 out.arg0).set j2 out.arg1).set i out.nty)
                | Except.error e => Except.error e
            | _, _ => Except.error TErr.assertionError
        | FnTarget.operatorAdd =>
            match info.args.get? 0, info.args.get? 1 with
            | some (Arg.node j1), some (Arg.node j2) =>
                let out := add_inference_rule (getTy tys1 j1) (getTy tys1 j2) nty
                match out.res with
                | Except.ok _ =>
                    Except.ok (((tys1.set j1 out.arg0).set j2 out.arg1).set i out.nty)
                | Except.error e => Except.error e
            | _, _ => Except.error TErr.assertionError
        | FnTarget.torchTranspose =>
            match info.args.get? 0, info.args.get? 1, info.args.get? 2 with
            | some (Arg.node j), some (Arg.intLit d1), some (Arg.intLit d2) =>
                match transpose_inference_rule (getTy tys1 j) d1 d2 with
                | Except.ok t => Except.ok (tys1.set i t)
                | Except.error e => Except.error e
            | _, _, _ => Except.error TErr.assertionError
        | FnTarget.torchReshape =>
            match info.args.get? 0, info.args.get? 1 with
            | some (Arg.node j), some (Arg.listLit l) =>
                match reshape_inference_rule (getTy tys1 j) l with
                | Except.ok t => Except.ok (tys1.set i t)
                | Except.error e => Except.error e
            | _, _ => Except.error TErr.assertionError
        | FnTarget.otherFn s => Except.error (TErr.unregisteredFunction s)
    | NodeOp.callModule =>
        match tr info.modName with
        | none => Except.error TErr.attrError
        | some mc =>
            match mc with
            | ModuleCfg.batchNorm2dM nf =>
                match info.args.get? 0 with
                | some (Arg.node j) =>
                    let out := bn2d_inference_rule (getTy tys1 j) nty nf
                    match out.res with
                    | Except.ok _ => Except.ok ((tys1.set j out.arg).set i out.nty)
                    | Except.error e => Except.error e
                | _ => Except.error TErr.assertionError
            | ModuleCfg.conv2dM c =>
                match info.args.get? 0 with
                | some (Arg.node j) =>
                    let out := conv2d_inference_rule (getTy tys1 j) nty c
                    match out.res with
                    | Except.ok _ => Except.ok ((tys1.set j out.arg).set i out.nty)
                    | Except.error e => Except.error e
                | _ => Except.error TErr.assertionError
            | ModuleCfg.reluM =>
                match info.args.get? 0 with
                | some (Arg.node j) =>
                    let out := relu_inference_rule (getTy tys1 j) nty
                    match out.res with
                    | Except.ok _ => Except.ok (tys1.set i out.nty)
                    | Except.error e => Except.error e
                | _ => Except.error TErr.assertionError
            | ModuleCfg.maxPool2dM p =>
                match info.args.get? 0 with
                | some (Arg.node j) =>
                    let out := maxpool2d_inference_rule (getTy tys1 j) nty p
                    match out.res with
                    | Except.ok _ => Except.ok (tys1.set i out.nty)
                    | Except.error e => Except.error e
                | _ => Except.error TErr.assertionError
            | ModuleCfg.linearM inF outF =>
                match info.args.get? 0 with
                | some (Arg.node j) =>
                    let out := linear_inference_rule (getTy tys1 j) nty inF outF
                    match out.res with
                    | Except.ok _ => Except.ok (tys1.set i out.nty)
                    | Except.error e => Except.error e
                | _ => Except.error TErr.assertionError
            | ModuleCfg.adaptiveAvgPool2dM os =>
                match info.args.get? 0 with
                | some (Arg.node j) =>
                    let out := adaptiveavgpool2d_inference_rule (getTy tys1 j) nty os
                    match out.res with
                    | Except.ok _ => Except.ok (tys1.set i out.nty)
                    | Except.error e => Except.error e
                | _ => Except.error TErr.assertionError
            | ModuleCfg.otherModule s => Except.error (TErr.unregisteredModule s)
    | NodeOp.output =>
        match info.args.get? 0 with
        | some (Arg.node j) => Except.ok (tys1.set i (getTy tys1 j))
        | _ => Except.error TErr.assertionError
    | NodeOp.other => Except.error TErr.notImplemented

/-- The driver loop of `GraphTypeChecker.type_check`: visit the given node
indices in order, aborting on the first error. -/
def type_check_nodes (tr : String → Option ModuleCfg) (ns : List NodeInfo) :
    List Nat → List Ty → Except TErr (List Ty)
  | [], tys => Except.ok tys
  | i :: rest, tys =>
      match type_check_node tr ns tys i with
      | Except.error e => Except.error e
      | Except.ok tys2 => type_check_nodes tr ns rest tys2

/-- `GraphTypeChecker.type_check()`: type check every node of the graph in
order. -/
def type_check (tr : String → Option ModuleCfg) (ns : List NodeInfo)
    (tys : List Ty) : Except TErr (List Ty) :=
  type_check_nodes tr ns (List.range ns.length) tys

/-- Whether a driver run succeeded (returned rather than raised). -/
def passOk (r : Except TErr (List Ty)) : Bool :=
  match r with
  | Except.ok _ => true
  | Except.error _ => false

/-- A 2x2 max-pool module with stride 2 (`MaxPool2d(2, stride=2)`, with the
default padding 0 and dilation 1). -/
def pool2x2 : PoolParams :=
  { padding := ScalarOrPair.scalar 0, kernel_size := ScalarOrPair.scalar 2,
    stride := ScalarOrPair.scalar 2, dilation := ScalarOrPair.scalar 1 }

/-- A `Conv2d(3, 16, 3, stride=1, padding=0, dilation=1)` module. -/
def conv3to16 : Conv2dCfg :=
  { in_channels := 3, out_channels := 16,
    params := { padding := ScalarOrPair.scalar 0, kernel_size := ScalarOrPair.scalar 3,
                stride := ScalarOrPair.scalar 1, dilation := ScalarOrPair.scalar 1 } }

/-- C2: when both operands are tensor-shape types whose broadcast results
are consistent and broadcast result `new_t1` is strictly more precise than
`new_t2`, the rule sets the node's type to `new_t2`, the LESS precise
result, not `new_t1` as the claim (and the source's own comment "we return
the more precise type") states: on operand types `(2, 2)` and `(Dyn, 2)`
the broadcast leaves both unchanged, `(2, 2)` is strictly more precise,
and the node's type becomes `(Dyn, 2)`. -/
theorem add_rule_picks_less_precise_eval :
    broadcast_types (Ty.tensor [Dim.val 2, Dim.val 2]) (Ty.tensor [Dim.dyn, Dim.val 2]) =
      Except.ok (Ty.tensor [Dim.val 2, Dim.val 2], Ty.tensor [Dim.dyn, Dim.val 2]) ∧
    is_consistent (Ty.tensor [Dim.val 2, Dim.val 2]) (Ty.tensor [Dim.dyn, Dim.val 2]) = true ∧
    is_more_precise (Ty.tensor [Dim.val 2, Dim.val 2]) (Ty.tensor [Dim.dyn, Dim.val 2]) = true ∧
    is_more_precise (Ty.tensor [Dim.dyn, Dim.val 2]) (Ty.tensor [Dim.val 2, Dim.val 2]) = false ∧
    (add_inference_rule (Ty.tensor [Dim.val 2, Dim.val 2]) (Ty.tensor [Dim.dyn, Dim.val 2])
        Ty.dyn).res = Except.ok (Ty.tensor [Dim.dyn, Dim.val 2]) ∧
    (add_inference_rule (Ty.tensor [Dim.val 2, Dim.val 2]) (Ty.tensor [Dim.dyn, Dim.val 2])
        Ty.dyn).nty = Ty.tensor [Dim.dyn, Dim.val 2] :=
  ⟨rfl, rfl, rfl, rfl, rfl, rfl⟩

/-- C3: for a concrete input size `d` the output-size formula of
`calculate` is `floor((d + 2*p[i] - dil[i]*(k[i]-1) - 1) / s[0]) + 1`,
reading the stride at index 0 for both axes; a dynamic input size yields a
dynamic output; and `conv2d_inference_rule` on input shape `(1,3,32,32)`
with kernel 3, stride 1, padding 0, dilation 1, in_channels 3,
out_channels 16 produces node type `(1,16,30,30)`. -/
theorem calculate_formula_and_conv_example :
    (∀ (m : PoolParams) (d : Int) (index : Nat),
        calculate (Dim.val d) m index =
          Dim.val (Int.fdiv
            (d + 2 * sopGet m.padding index -
              sopGet m.dilation index * (sopGet m.kernel_size index - 1) - 1)
            (sopGet m.stride 0) + 1)) ∧
    (∀ (m : PoolParams) (index : Nat), calculate Dim.dyn m index = Dim.dyn) ∧
    (conv2d_inference_rule
        (Ty.tensor [Dim.val 1, Dim.val 3, Dim.val 32, Dim.val 32]) Ty.dyn conv3to16).res =
      Except.ok (Ty.tensor [Dim.val 1, Dim.val 16, Dim.val 30, Dim.val 30]) ∧
    (conv2d_inference_rule
        (Ty.tensor [Dim.val 1, Dim.val 3, Dim.val 32, Dim.val 32]) Ty.dyn conv3to16).nty =
      Ty.tensor [Dim.val 1, Dim.val 16, Dim.val 30, Dim.val 30] :=
  ⟨fun _ _ _ => rfl, fun _ _ => rfl, rfl, rfl⟩

/-- C6: `adaptiveavgpool2d_check` overrides the last two dimensions with
the configured output size, and a scalar is applied to both axes, but in a
pair only a missing HEIGHT defaults to the other component: the statement
handling a missing width (`output_size[1] == output_size[0]`) is a
comparison rather than an assignment, so with output size `(5, None)` the
resulting last dimension is the Python value `None`, not `5` as the claim
states. -/
theorem adaptiveavgpool_none_width_eval :
    adaptiveavgpool2d_check (Ty.tensor [Dim.val 1, Dim.val 3, Dim.val 8, Dim.val 8])
        (OutSize.pairO (some 5) none) =
      Except.ok (Ty.tensor [Dim.val 1, Dim.val 3, Dim.val 5, Dim.noneD]) ∧
    adaptiveavgpool2d_check (Ty.tensor [Dim.val 1, Dim.val 3, Dim.val 8, Dim.val 8])
        (OutSize.pairO none (some 5)) =
      Except.ok (Ty.tensor [Dim.val 1, Dim.val 3, Dim.val 5, Dim.val 5]) ∧
    adaptiveavgpool2d_check (Ty.tensor [Dim.val 1, Dim.val 3, Dim.val 8, Dim.val 8])
        (OutSize.scalarO 7) =
      Except.ok (Ty.tensor [Dim.val 1, Dim.val 3, Dim.val 7, Dim.val 7]) :=
  ⟨rfl, rfl, rfl⟩

/-- C7: with both the input node's type and the node's type dynamic, the
max-pool rule returns `Dyn` and leaves the node's type unchanged; with a
dynamic input type and node type `(1,3,8,8)` under a 2x2 pool of stride 2,
the node's type is recomputed from the node type to `(1,3,4,4)`. -/
theorem maxpool_dyn_propagation_eval :
    (∀ m : PoolParams, maxpool2d_inference_rule Ty.dyn Ty.dyn m =
      { res := Except.ok Ty.dyn, nty := Ty.dyn }) ∧
    maxpool2d_inference_rule Ty.dyn
        (Ty.tensor [Dim.val 1, Dim.val 3, Dim.val 8, Dim.val 8]) pool2x2 =
      { res := Except.ok (Ty.tensor [Dim.val 1, Dim.val 3, Dim.val 4, Dim.val 4]),
        nty := Ty.tensor [Dim.val 1, Dim.val 3, Dim.val 4, Dim.val 4] } :=
  ⟨fun _ => rfl, rfl⟩

/-- C10: when `conv2d_inference_rule` raises because the input's channel
dimension is inconsistent with the module's `in_channels`, the argument
node's type has already been overwritten with its rank-4 expansion (and a
`Dyn` input expands to a rank-4 all-`Dyn` tensor-shape type), while the
node's own type is left unchanged on that error path. -/
theorem conv2d_channel_error_mutates_arg
    (argTy nty : Ty) (m : Conv2dCfg) (a c : Ty)
    (ha : expand_to_tensor_dim argTy 4 = Except.ok a)
    (hc : expand_to_tensor_dim nty 4 = Except.ok c)
    (hch : dim_consistent (getDim a 1) (Dim.val m.in_channels) = false) :
    conv2d_inference_rule argTy nty m =
      { res := Except.error (TErr.cannotApplyModule a nty), arg := a, nty := nty } ∧
    expand_to_tensor_dim Ty.dyn 4 =
      Except.ok (Ty.tensor [Dim.dyn, Dim.dyn, Dim.dyn, Dim.dyn]) := by
  refine ⟨?_, rfl⟩
  simp [conv2d_inference_rule, ha, hc, hch]

/-- Witness for `conv2d_channel_error_mutates_arg`: input type
`(1,5,8,8)`, node type `Dyn`, `in_channels` 3. -/
theorem conv2d_channel_error_mutates_arg_witness :
    conv2d_inference_rule (Ty.tensor [Dim.val 1, Dim.val 5, Dim.val 8, Dim.val 8])
        Ty.dyn conv3to16 =
      { res := Except.error (TErr.cannotApplyModule
                  (Ty.tensor [Dim.val 1, Dim.val 5, Dim.val 8, Dim.val 8]) Ty.dyn),
        arg := Ty.tensor [Dim.val 1, Dim.val 5, Dim.val 8, Dim.val 8], nty := Ty.dyn } ∧
    expand_to_tensor_dim Ty.dyn 4 =
      Except.ok (Ty.tensor [Dim.dyn, Dim.dyn, Dim.dyn, Dim.dyn]) :=
  conv2d_channel_error_mutates_arg
    (Ty.tensor [Dim.val 1, Dim.val 5, Dim.val 8, Dim.val 8]) Ty.dyn conv3to16
    (Ty.tensor [Dim.val 1, Dim.val 5, Dim.val 8, Dim.val 8])
    (Ty.tensor [Dim.dyn, Dim.dyn, Dim.dyn, Dim.dyn]) rfl rfl rfl

/-- C1 counterexample: the add rule runs to completion on a node with
prior annotation `(5, 5)` and operand types `(Dyn, Dyn)` and `(Dyn, Dyn)`
(so the input-implied type is `(Dyn, Dyn)`, consistent with the prior
annotation), yet the node's type afterwards is `(Dyn, Dyn)`, which is
neither equal to nor more precise than the prior annotation `(5, 5)`. -/
theorem add_rule_discards_prior_type :
    (add_inference_rule (Ty.tensor [Dim.dyn, Dim.dyn]) (Ty.tensor [Dim.dyn, Dim.dyn])
        (Ty.tensor [Dim.val 5, Dim.val 5])).res = Except.ok (Ty.tensor [Dim.dyn, Dim.dyn]) ∧
    (add_inference_rule (Ty.tensor [Dim.dyn, Dim.dyn]) (Ty.tensor [Dim.dyn, Dim.dyn])
        (Ty.tensor [Dim.val 5, Dim.val 5])).nty = Ty.tensor [Dim.dyn, Dim.dyn] ∧
    is_consistent (Ty.tensor [Dim.val 5, Dim.val 5]) (Ty.tensor [Dim.dyn, Dim.dyn]) = true ∧
    is_more_precise (Ty.tensor [Dim.dyn, Dim.dyn]) (Ty.tensor [Dim.val 5, Dim.val 5]) = false ∧
    Ty.tensor [Dim.dyn, Dim.dyn] ≠ Ty.tensor [Dim.val 5, Dim.val 5] :=
  ⟨rfl, rfl, rfl, rfl, by decide⟩

/-- C1 (amended): for the relu and batch-norm-2d rules — the rules that
consult both the prior annotation and the input type — the node's type
after a successful run is the more precise of the two as chosen by
`is_more_precise` (for batch-norm, of their rank-4 expansions); the other
rules do not guarantee a result at least as precise as the prior
annotation, which the add rule demonstrates by overwriting it. -/
theorem relu_bn2d_result_more_precise
    (argTy nty : Ty) (nf : Int) (a c : Ty)
    (hcons : is_consistent argTy nty = true)
    (ha : expand_to_tensor_dim argTy 4 = Except.ok a)
    (hc : expand_to_tensor_dim nty 4 = Except.ok c)
    (h1 : dim_consistent (getDim a 1) (Dim.val nf) = true)
    (h2 : dim_consistent (getDim c 1) (Dim.val nf) = true)
    (h3 : is_consistent a c = true) :
    relu_inference_rule argTy nty =
      { res := Except.ok (if is_more_precise argTy nty then argTy else nty),
        nty := if is_more_precise argTy nty then argTy else nty } ∧
    bn2d_inference_rule argTy nty nf =
      { res := Except.ok (if is_more_precise a c then a else c),
        arg := a, nty := if is_more_precise a c then a else c } := by
  constructor
  · simp only [relu_inference_rule, hcons]
    by_cases hm : is_more_precise argTy nty <;> simp [hm]
  · simp only [bn2d_inference_rule, ha, hc, h1, h2, h3]
    by_cases hm : is_more_precise a c <;> simp [hm]

/-- Witness for `relu_bn2d_result_more_precise`: input type `(1,3,8,8)`,
node type `Dyn`, `num_features` 3. -/
theorem relu_bn2d_result_more_precise_witness :
    relu_inference_rule (Ty.tensor [Dim.val 1, Dim.val 3, Dim.val 8, Dim.val 8]) Ty.dyn =
      { res := Except.ok (Ty.tensor [Dim.val 1, Dim.val 3, Dim.val 8, Dim.val 8]),
        nty := Ty.tensor [Dim.val 1, Dim.val 3, Dim.val 8, Dim.val 8] } ∧
    bn2d_inference_rule (Ty.tensor [Dim.val 1, Dim.val 3, Dim.val 8, Dim.val 8]) Ty.dyn 3 =
      { res := Except.ok (Ty.tensor [Dim.val 1, Dim.val 3, Dim.val 8, Dim.val 8]),
        arg := Ty.tensor [Dim.val 1, Dim.val 3, Dim.val 8, Dim.val 8],
        nty := Ty.tensor [Dim.val 1, Dim.val 3, Dim.val 8, Dim.val 8] } :=
  relu_bn2d_result_more_precise
    (Ty.tensor [Dim.val 1, Dim.val 3, Dim.val 8, Dim.val 8]) Ty.dyn 3
    (Ty.tensor [Dim.val 1, Dim.val 3, Dim.val 8, Dim.val 8])
    (Ty.tensor [Dim.dyn, Dim.dyn, Dim.dyn, Dim.dyn]) rfl rfl rfl rfl rfl rfl

/-- C4 counterexample: on a max-pool node with input type `(1,3,8,8)` and
node type `(1,4,8,8)` under a 2x2 pool of stride 2, the two recomputed
shapes `(1,3,4,4)` and `(1,4,4,4)` are inconsistent, yet the rule raises
no error: it sets the node's type to the recomputed node shape and
returns. -/
theorem maxpool_inconsistent_recomputed_no_error :
    maxpool2d_check (Ty.tensor [Dim.val 1, Dim.val 3, Dim.val 8, Dim.val 8]) pool2x2 =
      Except.ok (Ty.tensor [Dim.val 1, Dim.val 3, Dim.val 4, Dim.val 4]) ∧
    maxpool2d_check (Ty.tensor [Dim.val 1, Dim.val 4, Dim.val 8, Dim.val 8]) pool2x2 =
      Except.ok (Ty.tensor [Dim.val 1, Dim.val 4, Dim.val 4, Dim.val 4]) ∧
    is_consistent (Ty.tensor [Dim.val 1, Dim.val 3, Dim.val 4, Dim.val 4])
      (Ty.tensor [Dim.val 1, Dim.val 4, Dim.val 4, Dim.val 4]) = false ∧
    maxpool2d_inference_rule (Ty.tensor [Dim.val 1, Dim.val 3, Dim.val 8, Dim.val 8])
        (Ty.tensor [Dim.val 1, Dim.val 4, Dim.val 8, Dim.val 8]) pool2x2 =
      { res := Except.ok (Ty.tensor [Dim.val 1, Dim.val 4, Dim.val 4, Dim.val 4]),
        nty := Ty.tensor [Dim.val 1, Dim.val 4, Dim.val 4, Dim.val 4] } :=
  ⟨rfl, rfl, rfl, rfl⟩

/-- C4 (amended): when both the input node's type and the node's type are
tensor-shape types and both recomputations through the pooling formula
succeed, the rule performs NO consistency check between the two recomputed
shapes: it sets the node's type to the recomputed input shape when that is
more precise than the recomputed node shape and to the recomputed node
shape otherwise, raising no error even when the two are inconsistent. -/
theorem maxpool_both_concrete_pick
    (a b : Ty) (m : PoolParams) (ca cb : Ty)
    (hta : isTensorTy a = true) (htb : isTensorTy b = true)
    (hca : maxpool2d_check a m = Except.ok ca)
    (hcb : maxpool2d_check b m = Except.ok cb) :
    maxpool2d_inference_rule a b m =
      { res := Except.ok (if is_more_precise ca cb then ca else cb),
        nty := if is_more_precise ca cb then ca else cb } := by
  have hadyn : a ≠ Ty.dyn := by
    intro e; subst e; simp [isTensorTy] at hta
  have hbdyn : b ≠ Ty.dyn := by
    intro e; subst e; simp [isTensorTy] at htb
  simp only [maxpool2d_inference_rule]
  rw [if_neg (by exact fun h => hadyn h.1), if_neg (by exact fun h => hadyn h.1),
      if_neg (by exact fun h => hbdyn h.1), if_pos ⟨hta, htb⟩]
  rw [hca, hcb]
  by_cases hm : is_more_precise ca cb <;> simp [hm]

/-- Witness for `maxpool_both_concrete_pick`: both types `(1,3,8,8)` under
a 2x2 pool of stride 2. -/
theorem maxpool_both_concrete_pick_witness :
    maxpool2d_inference_rule (Ty.tensor [Dim.val 1, Dim.val 3, Dim.val 8, Dim.val 8])
        (Ty.tensor [Dim.val 1, Dim.val 3, Dim.val 8, Dim.val 8]) pool2x2 =
      { res := Except.ok (Ty.tensor [Dim.val 1, Dim.val 3, Dim.val 4, Dim.val 4]),
        nty := Ty.tensor [Dim.val 1, Dim.val 3, Dim.val 4, Dim.val 4] } :=
  maxpool_both_concrete_pick
    (Ty.tensor [Dim.val 1, Dim.val 3, Dim.val 8, Dim.val 8])
    (Ty.tensor [Dim.val 1, Dim.val 3, Dim.val 8, Dim.val 8]) pool2x2
    (Ty.tensor [Dim.val 1, Dim.val 3, Dim.val 4, Dim.val 4])
    (Ty.tensor [Dim.val 1, Dim.val 3, Dim.val 4, Dim.val 4]) rfl rfl rfl rfl

/-- Unifying a dimension with itself changes nothing. -/
theorem bcastPair_self (d : Dim) : bcastPair (d, d) = (d, d) := by
  by_cases hd : d = Dim.val 1 <;> simp [bcastPair, hd]

/-- The broadcast unification loop is the identity on a shape zipped with
itself. -/
theorem zip_self_map_bcastPair (l : List Dim) :
    (l.zip l).map bcastPair = l.zip l := by
  induction l with
  | nil => rfl
  | cons d rest ih => simp only [List.zip_cons_cons, List.map_cons, bcastPair_self, ih]

/-- C9: `broadcast_types(A, A) = (A, A)` for every tensor-shape type `A`
(rank at least 1, per the data-model invariant), with no error raised. -/
theorem broadcast_types_idempotent (dims : List Dim) (h : dims ≠ []) :
    broadcast_types (Ty.tensor dims) (Ty.tensor dims) =
      Except.ok (Ty.tensor dims, Ty.tensor dims) := by
  have hfst : (dims.zip dims).map Prod.fst = dims := List.map_fst_zip dims dims (le_refl _)
  have hsnd : (dims.zip dims).map Prod.snd = dims := List.map_snd_zip dims dims (le_refl _)
  have hlen0 : dims.length ≠ 0 := by simpa [List.length_eq_zero] using h
  simp only [broadcast_types]
  rw [if_neg (by simp)]
  rw [if_neg (by omega)]
  simp only [lt_self_iff_false, if_false]
  rw [zip_self_map_bcastPair, hfst, hsnd]
  rw [if_neg (fun hx => hx.1 rfl)]

/-- Witness for `broadcast_types_idempotent` at `A = (2, 3)`. -/
theorem broadcast_types_idempotent_witness :
    broadcast_types (Ty.tensor [Dim.val 2, Dim.val 3]) (Ty.tensor [Dim.val 2, Dim.val 3]) =
      Except.ok (Ty.tensor [Dim.val 2, Dim.val 3], Ty.tensor [Dim.val 2, Dim.val 3]) :=
  broadcast_types_idempotent [Dim.val 2, Dim.val 3] (by decide)

/-- A `call_function` node whose target is not in the registry fails with
the unregistered-operator error. -/
theorem type_check_node_unregistered_fn (tr : String → Option ModuleCfg)
    (ns : List NodeInfo) (tys : List Ty) (i : Nat) (info : NodeInfo) (s : String)
    (hget : ns.get? i = some info) (hop : info.op = NodeOp.callFunction)
    (hft : info.fnTarget = FnTarget.otherFn s) :
    type_check_node tr ns tys i = Except.error (TErr.unregisteredFunction s) := by
  simp only [type_check_node, hget, hop, hft]

/-- A `call_module` node whose resolved module class is not in the
registry fails with the unregistered-operator error. -/
theorem type_check_node_unregistered_mod (tr : String → Option ModuleCfg)
    (ns : List NodeInfo) (tys : List Ty) (i : Nat) (info : NodeInfo) (s : String)
    (hget : ns.get? i = some info) (hop : info.op = NodeOp.callModule)
    (hmod : tr info.modName = some (ModuleCfg.otherModule s)) :
    type_check_node tr ns tys i = Except.error (TErr.unregisteredModule s) := by
  simp only [type_check_node, hget, hop, hmod]

/-- An unregistered target is never a `FnTarget` constructor of the
registry, so it carries a name. -/
theorem unregistered_fn_is_other (t : FnTarget) (hreg : registered_fn t = false) :
    ∃ s, t = FnTarget.otherFn s := by
  cases t with
  | otherFn s => exact ⟨s, rfl⟩
  | torchAdd => simp [registered_fn] at hreg
  | operatorAdd => simp [registered_fn] at hreg
  | torchTranspose => simp [registered_fn] at hreg
  | torchReshape => simp [registered_fn] at hreg

/-- If some visited index always fails, the whole driver loop fails. -/
theorem type_check_nodes_stuck (tr : String → Option ModuleCfg)
    (ns : List NodeInfo) (i : Nat) (l : List Nat) (hmem : i ∈ l)
    (herr : ∀ tys, ∃ e, type_check_node tr ns tys i = Except.error e) :
    ∀ tys, passOk (type_check_nodes tr ns l tys) = false := by
  induction l with
  | nil => cases hmem
  | cons j rest ih =>
      intro tys
      simp only [type_check_nodes]
      cases hj : type_check_node tr ns tys j with
      | error e => rfl
      | ok tys2 =>
          rcases List.mem_cons.mp hmem with heq | hmem2
          · subst heq
            obtain ⟨e, he⟩ := herr tys
            rw [he] at hj
            cases hj
          · exact ih hmem2 tys2

/-- C8: a graph containing a `call_function` node with an unregistered
target makes the whole `type_check` pass fail — the node is never
silently skipped — and visiting that node itself raises the
unregistered-operator error naming the target; the same holds for a
`call_module` node whose resolved module instance's class has no
registered rule. -/
theorem type_check_unregistered_fatal (tr : String → Option ModuleCfg)
    (ns : List NodeInfo) (tys : List Ty) (i : Nat) (info : NodeInfo)
    (hget : ns.get? i = some info) :
    (info.op = NodeOp.callFunction → registered_fn info.fnTarget = false →
      passOk (type_check tr ns tys) = false ∧
      ∀ s, info.fnTarget = FnTarget.otherFn s →
        type_check_node tr ns tys i = Except.error (TErr.unregisteredFunction s)) ∧
    (info.op = NodeOp.callModule →
      ∀ s, tr info.modName = some (ModuleCfg.otherModule s) →
        type_check_node tr ns tys i = Except.error (TErr.unregisteredModule s) ∧
        passOk (type_check tr ns tys) = false) := by
  have hlt : i < ns.length := by
    by_contra hge
    rw [List.get?_eq_none.mpr (Nat.le_of_not_lt hge)] at hget
    cases hget
  have hmem : i ∈ List.range ns.length := List.mem_range.mpr hlt
  constructor
  · intro hop hreg
    obtain ⟨s, hs⟩ := unregistered_fn_is_other info.fnTarget hreg
    constructor
    · exact type_check_nodes_stuck tr ns i (List.range ns.length) hmem
        (fun tys2 => ⟨TErr.unregisteredFunction s,
          type_check_node_unregistered_fn tr ns tys2 i info s hget hop hs⟩) tys
    · intro s2 hs2
      exact type_check_node_unregistered_fn tr ns tys i info s2 hget hop hs2
  · intro hop s hmod
    refine ⟨type_check_node_unregistered_mod tr ns tys i info s hget hop hmod, ?_⟩
    exact type_check_nodes_stuck tr ns i (List.range ns.length) hmem
      (fun tys2 => ⟨TErr.unregisteredModule s,
        type_check_node_unregistered_mod tr ns tys2 i info s hget hop hmod⟩) tys

/-- Witness for `type_check_unregistered_fatal`: a one-node graph calling
the unregistered function "foo", and a one-node graph calling a module
"m" resolving to an instance of an unregistered class "bar". -/
theorem type_check_unregistered_fatal_witness :
    passOk (type_check (fun _ => none)
      [{ op := NodeOp.callFunction, fnTarget := FnTarget.otherFn "foo",
         modName := "", args := [] }] [Ty.noneTy]) = false ∧
    type_check_node (fun _ => none)
      [{ op := NodeOp.callFunction, fnTarget := FnTarget.otherFn "foo",
         modName := "", args := [] }] [Ty.noneTy] 0 =
      Except.error (TErr.unregisteredFunction "foo") ∧
    type_check_node (fun _ => some (ModuleCfg.otherModule "bar"))
      [{ op := NodeOp.callModule, fnTarget := FnTarget.torchAdd,
         modName := "m", args := [] }] [Ty.noneTy] 0 =
      Except.error (TErr.unregisteredModule "bar") ∧
    passOk (type_check (fun _ => some (ModuleCfg.otherModule "bar"))
      [{ op := NodeOp.callModule, fnTarget := FnTarget.torchAdd,
         modName := "m", args := [] }] [Ty.noneTy]) = false :=
  ⟨((type_check_unregistered_fatal (fun _ => none)
      [{ op := NodeOp.callFunction, fnTarget := FnTarget.otherFn "foo",
         modName := "", args := [] }] [Ty.noneTy] 0
      { op := NodeOp.callFunction, fnTarget := FnTarget.otherFn "foo",
        modName := "", args := [] } rfl).1 rfl rfl).1,
   ((type_check_unregistered_fatal (fun _ => none)
      [{ op := NodeOp.callFunction, fnTarget := FnTarget.otherFn "foo",
         modName := "", args := [] }] [Ty.noneTy] 0
      { op := NodeOp.callFunction, fnTarget := FnTarget.otherFn "foo",
        modName := "", args := [] } rfl).1 rfl rfl).2 "foo" rfl,
   ((type_check_unregistered_fatal (fun _ => some (ModuleCfg.otherModule "bar"))
      [{ op := NodeOp.callModule, fnTarget := FnTarget.torchAdd,
         modName := "m", args := [] }] [Ty.noneTy] 0
      { op := NodeOp.callModule, fnTarget := FnTarget.torchAdd,
        modName := "m", args := [] } rfl).2 rfl "bar" rfl).1,
   ((type_check_unregistered_fatal (fun _ => some (ModuleCfg.otherModule "bar"))
      [{ op := NodeOp.callModule, fnTarget := FnTarget.torchAdd,
         modName := "m", args := [] }] [Ty.noneTy] 0
      { op := NodeOp.callModule, fnTarget := FnTarget.torchAdd,
        modName := "m", args := [] } rfl).2 rfl "bar" rfl).2⟩

/-- The accumulator form of `reduce` multiplication over known
dimensions. -/
theorem dimsProdAux_map_val (l : List Int) (acc : Int) :
    dimsProdAux acc (l.map Dim.val) = Except.ok (acc * l.prod) := by
  induction l generalizing acc with
  | nil => simp [dimsProdAux]
  | cons x xs ih =>
      simp only [List.map_cons, dimsProdAux, ih, List.prod_cons]
      rw [mul_assoc]

/-- `reduce` over a nonempty list of known dimensions is their product. -/
theorem dimsProd_map_val (l : List Int) (h : l ≠ []) :
    dimsProd (l.map Dim.val) = Except.ok l.prod := by
  cases l with
  | nil => exact absurd rfl h
  | cons x xs =>
      have h1 := dimsProdAux_map_val (x :: xs) 1
      simpa [dimsProd] using h1

/-- `reduce` over a nonempty list of integers is their product. -/
theorem intProd_ok (l : List Int) (h : l ≠ []) : intProd l = Except.ok l.prod := by
  cases l with
  | nil => exact absurd rfl h
  | cons x xs => rfl

/-- The `Dyn`-to-`1` substitution over a shape without `None` entries
yields the integer list where `Dyn` counts as `1`. -/
theorem map_dyn_to_one (dims : List Dim) (hnone : ∀ d ∈ dims, d ≠ Dim.noneD) :
    dims.map (fun e => if e = Dim.dyn then Dim.val 1 else e) =
      (dims.map fun d => match d with | Dim.val n => n | _ => 1).map Dim.val := by
  induction dims with
  | nil => rfl
  | cons d rest ih =>
      have hd : d ≠ Dim.noneD := hnone d (List.mem_cons_self d rest)
      have hrest : ∀ x ∈ rest, x ≠ Dim.noneD := fun x hx => hnone x (List.mem_cons_of_mem d hx)
      cases d with
      | dyn => simp [ih hrest]
      | val n => simp [ih hrest]
      | noneD => exact absurd rfl hd

/-- Dropping the `-1` wildcards from a target list changes its product by
at most a sign. -/
theorem prod_filter_neg_one (l : List Int) :
    l.prod = (l.filter (fun x => x != -1)).prod ∨
      l.prod = -((l.filter (fun x => x != -1)).prod) := by
  induction l with
  | nil => left; rfl
  | cons x rest ih =>
      by_cases hx : x = -1
      · subst hx
        rcases ih with hp | hp <;>
          simp only [List.filter_cons, List.prod_cons, hp] <;> norm_num
      · rcases ih with hp | hp <;>
          simp only [List.filter_cons, List.prod_cons, hp] <;> simp [hx]

/-- The exact-product case of the reshape rule: a fully known source and a
wildcard-free target succeed exactly when the element counts agree. -/
theorem reshape_part_A (a b : List Int) (ha : a ≠ []) (hb : b ≠ [])
    (hnw : (-1 : Int) ∉ b) :
    reshape_inference_rule (Ty.tensor (a.map Dim.val)) b =
      if a.prod = b.prod then Except.ok (Ty.tensor (b.map Dim.val))
      else Except.error (TErr.cannotReshape (Ty.tensor (a.map Dim.val))
             (Ty.tensor (b.map Dim.val))) := by
  have htgt : reshapeTargetTy b = Ty.tensor (b.map Dim.val) := by
    unfold reshapeTargetTy
    congr 1
    refine List.map_congr_left fun x hx => if_neg ?_
    rintro rfl
    exact hnw hx
  have hnd : hasDynDim (Ty.tensor (a.map Dim.val)) = false := by
    simp [hasDynDim]
  simp only [reshape_inference_rule, htgt]
  rw [if_neg (by simp)]
  rw [if_neg (by simp [hnd, hnw])]
  rw [dimsProd_map_val a ha, intProd_ok b hb]

/-- The divisibility case of the reshape rule: when the source has a `Dyn`
dimension or the target a wildcard, the rule succeeds exactly when the
product of the known dimensions of one side evenly divides the other. -/
theorem reshape_part_B (dims : List Dim) (b : List Int)
    (hd : dims ≠ []) (hb : b ≠ [])
    (hnone : ∀ d ∈ dims, d ≠ Dim.noneD)
    (hbr : Dim.dyn ∈ dims ∨ (-1 : Int) ∈ b)
    (hp1 : (dims.map fun d => match d with | Dim.val n => n | _ => 1).prod ≠ 0)
    (hkp2 : (b.filter (fun x => x != -1)).prod ≠ 0) :
    reshape_inference_rule (Ty.tensor dims) b =
      if (b.filter (fun x => x != -1)).prod ∣
           (dims.map fun d => match d with | Dim.val n => n | _ => 1).prod ∨
         (dims.map fun d => match d with | Dim.val n => n | _ => 1).prod ∣
           (b.filter (fun x => x != -1)).prod
      then Except.ok (reshapeTargetTy b)
      else Except.error (TErr.cannotReshape (Ty.tensor dims) (reshapeTargetTy b)) := by
  set p1 := (dims.map fun d => match d with | Dim.val n => n | _ => 1).prod with hp1def
  set kp2 := (b.filter (fun x => x != -1)).prod with hkp2def
  have hsign := prod_filter_neg_one b
  rw [← hkp2def] at hsign
  have hp2ne : b.prod ≠ 0 := by
    rcases hsign with hs | hs <;> rw [hs] <;> simpa using hkp2
  have hmapped : dims.map (fun e => if e = Dim.dyn then Dim.val 1 else e) =
      (dims.map fun d => match d with | Dim.val n => n | _ => 1).map Dim.val :=
    map_dyn_to_one dims hnone
  have hmne : (dims.map fun d => match d with | Dim.val n => n | _ => 1) ≠ [] := by
    simpa using hd
  have hdvd1 : (p1 % b.prod = 0) ↔ kp2 ∣ p1 := by
    rcases hsign with hs | hs
    · rw [hs]; exact Int.dvd_iff_emod_eq_zero.symm
    · rw [hs, Int.emod_neg]; exact Int.dvd_iff_emod_eq_zero.symm
  have hdvd2 : (b.prod % p1 = 0) ↔ p1 ∣ kp2 := by
    rcases hsign with hs | hs
    · rw [hs]; exact Int.dvd_iff_emod_eq_zero.symm
    · rw [hs, ← Int.dvd_neg]; exact Int.dvd_iff_emod_eq_zero.symm
  simp only [reshape_inference_rule]
  rw [if_neg (by simp)]
  rw [if_pos (hbr.imp (fun hdy => by simp [hasDynDim, hdy]) id)]
  rw [hmapped, dimsProd_map_val _ hmne, intProd_ok b hb]
  rw [← hp1def]
  dsimp only
  by_cases h1 : kp2 ∣ p1
  · rw [if_neg hp2ne, if_pos (hdvd1.mpr h1), if_pos (Or.inl h1)]
  · by_cases h2 : p1 ∣ kp2
    · rw [if_neg hp2ne, if_neg (fun hx => h1 (hdvd1.mp hx)), if_neg hp1,
          if_pos (hdvd2.mpr h2), if_pos (Or.inr h2)]
    · rw [if_neg hp2ne, if_neg (fun hx => h1 (hdvd1.mp hx)), if_neg hp1,
          if_neg (fun hx => h2 (hdvd2.mp hx)),
          if_neg (fun hx => hx.elim h1 h2)]

/-- C5: the reshape rule on a fully known source with a wildcard-free
target succeeds returning the target shape exactly when the products of
the dimensions are equal, raising a reshape error otherwise; when the
source has a `Dyn` dimension or the target a `-1` wildcard, it succeeds
exactly when the product of the known dimensions of one side evenly
divides the other (over nonzero known products); and concretely
`(2,3,4)` reshaped to `(6,4)` succeeds while `(2,3,4)` to `(5,5)` fails
with a reshape error. -/
theorem reshape_product_rules :
    (∀ (a b : List Int), a ≠ [] → b ≠ [] → (-1 : Int) ∉ b →
      reshape_inference_rule (Ty.tensor (a.map Dim.val)) b =
        if a.prod = b.prod then Except.ok (Ty.tensor (b.map Dim.val))
        else Except.error (TErr.cannotReshape (Ty.tensor (a.map Dim.val))
               (Ty.tensor (b.map Dim.val)))) ∧
    (∀ (dims : List Dim) (b : List Int), dims ≠ [] → b ≠ [] →
      (∀ d ∈ dims, d ≠ Dim.noneD) →
      (Dim.dyn ∈ dims ∨ (-1 : Int) ∈ b) →
      (dims.map fun d => match d with | Dim.val n => n | _ => 1).prod ≠ 0 →
      (b.filter (fun x => x != -1)).prod ≠ 0 →
      reshape_inference_rule (Ty.tensor dims) b =
        if (b.filter (fun x => x != -1)).prod ∣
             (dims.map fun d => match d with | Dim.val n => n | _ => 1).prod ∨
           (dims.map fun d => match d with | Dim.val n => n | _ => 1).prod ∣
             (b.filter (fun x => x != -1)).prod
        then Except.ok (reshapeTargetTy b)
        else Except.error (TErr.cannotReshape (Ty.tensor dims) (reshapeTargetTy b))) ∧
    reshape_inference_rule (Ty.tensor [Dim.val 2, Dim.val 3, Dim.val 4]) [6, 4] =
      Except.ok (Ty.tensor [Dim.val 6, Dim.val 4]) ∧
    reshape_inference_rule (Ty.tensor [Dim.val 2, Dim.val 3, Dim.val 4]) [5, 5] =
      Except.error (TErr.cannotReshape (Ty.tensor [Dim.val 2, Dim.val 3, Dim.val 4])
        (Ty.tensor [Dim.val 5, Dim.val 5])) :=
  ⟨reshape_part_A, reshape_part_B, rfl, rfl⟩

/-- Witness for `reshape_product_rules`: the exact-product case at
`(2,3) → (3,2)` and the divisibility case at `(2,Dyn) → (4,)`. -/
theorem reshape_product_rules_witness :
    reshape_inference_rule (Ty.tensor [Dim.val 2, Dim.val 3]) [3, 2] =
      Except.ok (Ty.tensor [Dim.val 3, Dim.val 2]) ∧
    reshape_inference_rule (Ty.tensor [Dim.val 2, Dim.dyn]) [4] =
      Except.ok (Ty.tensor [Dim.val 4]) :=
  ⟨(reshape_product_rules.1 [2, 3] [3, 2] (by decide) (by decide) (by decide)).trans rfl,
   (reshape_product_rules.2.1 [Dim.val 2, Dim.dyn] [4] (by decide) (by decide)
      (by decide) (Or.inl (by decide)) (by decide) (by decide)).trans rfl⟩
